import Mathlib

/-!
Shallow embedding of `lale/lib/rasl/metrics.py`: metric monoids (accuracy, R²),
the batched-scoring orchestration, and the scorer registry.

Modelling choices:
* Python/numpy floats are modelled as exact rationals extended with the IEEE-754
  special values `inf`, `neginf`, `nan` (`NPFloat`); rounding is abstracted away,
  but the numpy division-by-zero semantics (which return `inf`/`nan` with a
  `RuntimeWarning` instead of raising) are modelled faithfully, since several
  claims turn on whether degenerate aggregates raise or return a value.
* Python `int` is modelled as `ℤ`.
* The external columnar pipeline inside `to_monoid` is a black box: the generic
  `MetricMonoidFactory` record carries `to_monoid` as an abstract function, and
  the derived scoring operations (`score_data`, `score_data_batched`,
  `score_estimator`, `__call__`) are translated from the Python method bodies.
* Failure events are the spec's error kinds: the `AssertionError` from
  `get_scorer`'s membership check is `unknownMetric`, and the `TypeError` that
  `functools.reduce` raises on an empty iterable is `emptyBatchSequence`.
* The registry's module-level dict `_scorer_cache` is modelled by explicit state
  passing: `get_scorer` takes and returns a cache of type
  `String → Option (Option Scorer)` (outer `Option` = key present in the dict,
  inner `Option` = the stored `Optional[MetricMonoidFactory]` value).
-/

namespace RaslMetrics

/-- A numpy double: an exact rational, or one of the IEEE special values. -/
inductive NPFloat
  | finite (q : ℚ)
  | inf
  | neginf
  | nan
deriving DecidableEq, Repr

/-- Division of numpy doubles. Dividing a finite nonzero value by zero yields a
signed infinity, `0/0` yields `nan`, and `nan` is absorbing; numpy emits a
`RuntimeWarning` in the degenerate cases but does not raise. Signed zeros are
identified with `finite 0`. -/
def npDiv : NPFloat → NPFloat → NPFloat
  | .nan, _ => .nan
  | _, .nan => .nan
  | .finite a, .finite b =>
    if b = 0 then
      if 0 < a then .inf else if a < 0 then .neginf else .nan
    else .finite (a / b)
  | .finite _, .inf => .finite 0
  | .finite _, .neginf => .finite 0
  | .inf, .finite b => if 0 ≤ b then .inf else .neginf
  | .neginf, .finite b => if 0 ≤ b then .neginf else .inf
  | .inf, .inf => .nan
  | .inf, .neginf => .nan
  | .neginf, .inf => .nan
  | .neginf, .neginf => .nan

/-- Subtraction of numpy doubles; `nan` is absorbing and `inf - inf = nan`. -/
def npSub : NPFloat → NPFloat → NPFloat
  | .nan, _ => .nan
  | _, .nan => .nan
  | .finite a, .finite b => .finite (a - b)
  | .finite _, .inf => .neginf
  | .finite _, .neginf => .inf
  | .inf, .finite _ => .inf
  | .neginf, .finite _ => .neginf
  | .inf, .inf => .nan
  | .inf, .neginf => .inf
  | .neginf, .inf => .neginf
  | .neginf, .neginf => .nan

/-- Error kinds of the core, named as in the specification. `unknownMetric`
models the `AssertionError` of `get_scorer`'s membership check,
`emptyBatchSequence` the `TypeError` of `functools.reduce` on an empty
iterable, and `assertionFailed` the (unreachable) final assertion of
`get_scorer`. -/
inductive MetricError
  | unknownMetric
  | emptyBatchSequence
  | assertionFailed
deriving DecidableEq, Repr

/-- The monoid value of the accuracy metric (`_AccuracyData.__init__`). -/
structure _AccuracyData where
  _match : ℤ
  _total : ℤ
deriving DecidableEq, Repr

/-- `_AccuracyData.combine`: elementwise sum of the two counts. -/
def _AccuracyData.combine (a other : _AccuracyData) : _AccuracyData :=
  ⟨a._match + other._match, a._total + other._total⟩

/-- `_Accuracy.from_monoid`: `float(v._match / np.float64(v._total))`. The cast
to `np.float64` makes this numpy division, which never raises. -/
def _Accuracy.from_monoid (v : _AccuracyData) : NPFloat :=
  npDiv (.finite (v._match : ℚ)) (.finite (v._total : ℚ))

/-- The monoid value of the R² metric (`_R2Data.__init__`). -/
structure _R2Data where
  _n : ℤ
  _sum : ℚ
  _sum_sq : ℚ
  _res_sum_sq : ℚ
deriving DecidableEq, Repr

/-- `_R2Data.combine`: elementwise sum of all four fields. -/
def _R2Data.combine (a other : _R2Data) : _R2Data :=
  ⟨a._n + other._n, a._sum + other._sum, a._sum_sq + other._sum_sq,
   a._res_sum_sq + other._res_sum_sq⟩

/-- `_R2.from_monoid`: `ss_tot = v._sum_sq - v._sum * v._sum / np.float64(v._n)`
then `1 - float(v._res_sum_sq / ss_tot)`, all in numpy arithmetic. -/
def _R2.from_monoid (v : _R2Data) : NPFloat :=
  let ss_tot := npSub (.finite v._sum_sq)
    (npDiv (.finite (v._sum * v._sum)) (.finite (v._n : ℚ)))
  npSub (.finite 1) (npDiv (.finite v._res_sum_sq) ss_tot)

/-- A batch `_Batch_yyX = (Optional y_true, y_pred, Optional X)`; `score_data`
passes `X = None`, so the third slot is optional in practice. -/
def BatchYYX (Y P X : Type) : Type := Option Y × P × Option X

/-- A trained model, reduced to the one operation the core calls. -/
structure TrainedOperator (DX P : Type) where
  predict : DX → P

/-- A concrete metric factory, as the abstract class `MetricMonoidFactory`
combined with `_MetricMonoidMixin`: `to_monoid` (whose body delegates to the
external columnar pipeline and is therefore abstract here), the monoid
`combine`, and `from_monoid`. -/
structure MetricMonoidFactory (Y P X M : Type) where
  to_monoid : BatchYYX Y P X → M
  combine : M → M → M
  from_monoid : M → NPFloat

/-- `_MetricMonoidMixin.score_data`:
`self.from_monoid(self.to_monoid((y_true, y_pred, X)))` with `X` defaulting to
`None`. -/
def MetricMonoidFactory.score_data {Y P X M : Type} (f : MetricMonoidFactory Y P X M)
    (y_true : Y) (y_pred : P) (x : Option X) : NPFloat :=
  f.from_monoid (f.to_monoid (some y_true, y_pred, x))

/-- `MetricMonoidFactory.score_data_batched`: lift each batch with `to_monoid`,
left-fold with `combine` starting from the first lifted batch (the semantics of
`functools.reduce` without initializer, which raises on an empty iterable),
then apply `from_monoid`. -/
def MetricMonoidFactory.score_data_batched {Y P X M : Type}
    (f : MetricMonoidFactory Y P X M) (batches : List (BatchYYX Y P X)) :
    Except MetricError NPFloat :=
  match batches.map f.to_monoid with
  | [] => .error .emptyBatchSequence
  | m :: ms => .ok (f.from_monoid (ms.foldl f.combine m))

/-- `_MetricMonoidMixin.score_estimator`:
`self.score_data(y_true=y, y_pred=estimator.predict(X))` (no `X` forwarded). -/
def MetricMonoidFactory.score_estimator {Y P X M DX : Type}
    (f : MetricMonoidFactory Y P X M) (estimator : TrainedOperator DX P)
    (x : DX) (y : Y) : NPFloat :=
  f.score_data y (estimator.predict x) none

/-- `MetricMonoidFactory.__call__`: `return self.score_estimator(estimator, X, y)`. -/
def MetricMonoidFactory.call {Y P X M DX : Type}
    (f : MetricMonoidFactory Y P X M) (estimator : TrainedOperator DX P)
    (x : DX) (y : Y) : NPFloat :=
  f.score_estimator estimator x y

/-- The `_Accuracy` factory, with the pipeline-backed `to_monoid` abstract. -/
def _Accuracy.factory {Y P X : Type} (to_m : BatchYYX Y P X → _AccuracyData) :
    MetricMonoidFactory Y P X _AccuracyData :=
  ⟨to_m, _AccuracyData.combine, _Accuracy.from_monoid⟩

/-- The `_R2` factory, with the pipeline-backed `to_monoid` abstract. -/
def _R2.factory {Y P X : Type} (to_m : BatchYYX Y P X → _R2Data) :
    MetricMonoidFactory Y P X _R2Data :=
  ⟨to_m, _R2Data.combine, _R2.from_monoid⟩

/-- The values stored in the scorer registry: the singleton `_Accuracy()` and
`_R2()` instances (construction is deterministic, so instance identity is value
identity in this model). -/
inductive Scorer
  | accuracy
  | r2
deriving DecidableEq, Repr

/-- The registry cache: key present in the dict ↦ stored optional scorer. -/
def CacheState : Type := String → Option (Option Scorer)

/-- `_scorer_cache = {"accuracy": None, "r2": None}`. -/
def _scorer_cache : CacheState := fun s =>
  if s = "accuracy" then some none else if s = "r2" then some none else none

/-- The cache update performed by the body of `get_scorer`: if the entry for
`scoring` is `None`, construct the concrete factory for that name and store it;
otherwise leave the dict unchanged. -/
def _scorer_cache_after (cache : CacheState) (scoring : String) : CacheState :=
  match cache scoring with
  | some none =>
    if scoring = "accuracy" then
      fun s => if s = scoring then some (some Scorer.accuracy) else cache s
    else if scoring = "r2" then
      fun s => if s = scoring then some (some Scorer.r2) else cache s
    else cache
  | _ => cache

/-- `get_scorer(scoring)` with the module-level dict made explicit: assert the
key is present, construct and store the factory if the entry is `None`, then
return the stored instance together with the updated cache. -/
def get_scorer (cache : CacheState) (scoring : String) :
    Except MetricError (Scorer × CacheState) :=
  match cache scoring with
  | none => .error .unknownMetric
  | some _ =>
    match (_scorer_cache_after cache scoring) scoring with
    | some (some result) => .ok (result, _scorer_cache_after cache scoring)
    | _ => .error .assertionFailed

/-! Helper lemmas about the registry state update. -/

/-- Entries other than the requested one are untouched by the update. -/
theorem scorer_cache_after_other (cache : CacheState) (n s : String) (hs : s ≠ n) :
    _scorer_cache_after cache n s = cache s := by
  unfold _scorer_cache_after
  cases hcn : cache n with
  | none => rfl
  | some cached =>
    cases cached with
    | none =>
      by_cases h1 : n = "accuracy"
      · subst h1
        simp [hs]
      · by_cases h2 : n = "r2"
        · subst h2
          simp [hs]
        · simp [h1, h2]
    | some f => rfl

/-- A populated entry makes the update a no-op. -/
theorem scorer_cache_after_populated (cache : CacheState) (n : String) (f : Scorer)
    (hc : cache n = some (some f)) : _scorer_cache_after cache n = cache := by
  unfold _scorer_cache_after
  rw [hc]

/-- An absent key makes the update a no-op. -/
theorem scorer_cache_after_absent (cache : CacheState) (n : String)
    (hc : cache n = none) : _scorer_cache_after cache n = cache := by
  unfold _scorer_cache_after
  rw [hc]

/-- Requesting an unregistered name fails immediately. -/
theorem get_scorer_unregistered (cache : CacheState) (n : String)
    (hc : cache n = none) : get_scorer cache n = .error .unknownMetric := by
  unfold get_scorer
  rw [hc]

/-- Requesting a name whose entry is populated returns the stored instance and
leaves the cache unchanged. -/
theorem get_scorer_cached (cache : CacheState) (n : String) (f : Scorer)
    (hc : cache n = some (some f)) : get_scorer cache n = .ok (f, cache) := by
  unfold get_scorer
  rw [hc, scorer_cache_after_populated cache n f hc, hc]

/-- A successful call stores the returned instance under the requested name and
touches no other entry. -/
theorem get_scorer_state_update (cache cache' : CacheState) (n : String) (r : Scorer)
    (hok : get_scorer cache n = .ok (r, cache')) :
    cache' = _scorer_cache_after cache n ∧ cache' n = some (some r) ∧
      ∀ s, s ≠ n → cache' s = cache s := by
  unfold get_scorer at hok
  split at hok
  · exact absurd hok (by simp)
  · split at hok
    · rename_i result heq
      rw [Except.ok.injEq, Prod.mk.injEq] at hok
      obtain ⟨hr, hcache⟩ := hok
      subst hr
      subst hcache
      exact ⟨rfl, heq, fun s hs => scorer_cache_after_other cache n s hs⟩
    · exact absurd hok (by simp)

/-- C1: score_data versus score_data_batched on a one-element batch list. -/
theorem score_data_eq_batched_singleton {Y P X M : Type} (f : MetricMonoidFactory Y P X M)
    (y_true : Y) (y_pred : P) :
    f.score_data_batched [(some y_true, y_pred, (none : Option X))] =
      Except.ok (f.score_data y_true y_pred none) := rfl

/-- C2: combine is associative — exactly — for both `_AccuracyData`'s integer
counts and `_R2Data`'s fields (floats modelled as exact rationals, for which
the floating-point reassociation tolerance is zero). -/
theorem combine_assoc :
    (∀ a b c : _AccuracyData, (a.combine b).combine c = a.combine (b.combine c)) ∧
    (∀ a b c : _R2Data, (a.combine b).combine c = a.combine (b.combine c)) := by
  constructor <;> intro a b c <;>
    simp [_AccuracyData.combine, _R2Data.combine, add_assoc]

/-- C5: score_data_batched on an empty batch sequence fails with
`emptyBatchSequence` (the `TypeError` of `functools.reduce` without operand). -/
theorem score_data_batched_empty {Y P X M : Type} (f : MetricMonoidFactory Y P X M) :
    f.score_data_batched ([] : List (BatchYYX Y P X)) =
      Except.error MetricError.emptyBatchSequence := rfl

/-- C8: combine on accuracy data is the elementwise sum and preserves the
invariant `0 ≤ match ≤ total`. -/
theorem accuracy_combine_invariant (a b : _AccuracyData)
    (ha0 : 0 ≤ a._match) (ha1 : a._match ≤ a._total)
    (hb0 : 0 ≤ b._match) (hb1 : b._match ≤ b._total) :
    a.combine b = ⟨a._match + b._match, a._total + b._total⟩ ∧
      0 ≤ (a.combine b)._match ∧ (a.combine b)._match ≤ (a.combine b)._total := by
  refine ⟨rfl, ?_, ?_⟩ <;> simp only [_AccuracyData.combine] <;> omega

/-- Witness for C8 at `a = ⟨1, 2⟩`, `b = ⟨2, 3⟩`. -/
theorem accuracy_combine_invariant_witness :
    _AccuracyData.combine ⟨1, 2⟩ ⟨2, 3⟩ = ⟨1 + 2, 2 + 3⟩ ∧
      0 ≤ (_AccuracyData.combine ⟨1, 2⟩ ⟨2, 3⟩)._match ∧
      (_AccuracyData.combine ⟨1, 2⟩ ⟨2, 3⟩)._match ≤
        (_AccuracyData.combine ⟨1, 2⟩ ⟨2, 3⟩)._total :=
  accuracy_combine_invariant ⟨1, 2⟩ ⟨2, 3⟩ (by decide) (by decide) (by decide) (by decide)

/-- C3 counterexample: at the all-zero aggregate (`n = 0`), `_R2.from_monoid`
does not fail with `DegenerateAggregateError`; the numpy divisions yield `nan`
and the call returns normally with `nan`. -/
theorem r2_from_monoid_zero_aggregate :
    _R2.from_monoid ⟨0, 0, 0, 0⟩ = NPFloat.nan := by
  simp [_R2.from_monoid, npDiv, npSub]

/-- C3 amended: `from_monoid` computes `ss_tot = sum_sq - sum^2 / n` and
returns `1 - res_sum_sq / ss_tot` whenever `n ≠ 0` and `ss_tot ≠ 0`; in the
degenerate cases it does not raise but follows IEEE semantics: `nan` when
`n = 0` (and `sum = 0`), and `-inf` when `ss_tot = 0` with a positive residual
sum of squares. -/
theorem r2_from_monoid_amended :
    (∀ v : _R2Data, (v._n : ℚ) ≠ 0 → v._sum_sq - v._sum * v._sum / (v._n : ℚ) ≠ 0 →
      _R2.from_monoid v =
        NPFloat.finite (1 - v._res_sum_sq / (v._sum_sq - v._sum * v._sum / (v._n : ℚ)))) ∧
    (∀ v : _R2Data, v._n = 0 → v._sum = 0 → _R2.from_monoid v = NPFloat.nan) ∧
    (∀ v : _R2Data, (v._n : ℚ) ≠ 0 → v._sum_sq - v._sum * v._sum / (v._n : ℚ) = 0 →
      0 < v._res_sum_sq → _R2.from_monoid v = NPFloat.neginf) := by
  refine ⟨?_, ?_, ?_⟩
  · intro v h1 h2
    simp [_R2.from_monoid, npDiv, npSub, h1, h2]
  · intro v h0 hs
    simp [_R2.from_monoid, npDiv, npSub, h0, hs]
  · intro v h1 h2 h3
    simp [_R2.from_monoid, npDiv, npSub, h1, h2, h3, not_lt.mpr (le_of_lt h3)]

/-- Witness for the C3 amended theorem at `v = ⟨2, 3, 5, 1⟩`:
`ss_tot = 5 - 9/2 = 1/2` and the score is `1 - 1/(1/2) = -1`. -/
theorem r2_from_monoid_amended_witness :
    _R2.from_monoid ⟨2, 3, 5, 1⟩ = NPFloat.finite (-1) := by
  have h := r2_from_monoid_amended.1 ⟨2, 3, 5, 1⟩ (by norm_num) (by norm_num)
  rw [h]
  norm_num

/-- C4 counterexample: at `match = 0, total = 0`, `_Accuracy.from_monoid` does
not fail with `DegenerateAggregateError`; the numpy division `0/0.0` silently
returns `nan`. -/
theorem accuracy_from_monoid_zero_total :
    _Accuracy.from_monoid ⟨0, 0⟩ = NPFloat.nan := by
  simp [_Accuracy.from_monoid, npDiv]

/-- C4 amended: `from_monoid` returns `match / total` as a float when
`total > 0`; when `total = 0` it does not raise but returns `inf` (for
`match > 0`) or `nan` (for `match = 0`), following numpy division-by-zero
semantics. -/
theorem accuracy_from_monoid_amended :
    (∀ v : _AccuracyData, 0 < v._total →
      _Accuracy.from_monoid v = NPFloat.finite ((v._match : ℚ) / (v._total : ℚ))) ∧
    (∀ v : _AccuracyData, v._total = 0 → 0 < v._match →
      _Accuracy.from_monoid v = NPFloat.inf) ∧
    (∀ v : _AccuracyData, v._total = 0 → v._match = 0 →
      _Accuracy.from_monoid v = NPFloat.nan) := by
  refine ⟨?_, ?_, ?_⟩
  · intro v h
    have h' : (v._total : ℚ) ≠ 0 := Int.cast_ne_zero.mpr (by omega)
    simp [_Accuracy.from_monoid, npDiv, h']
  · intro v h0 hm
    have hm' : (0 : ℚ) < (v._match : ℚ) := by exact_mod_cast hm
    simp [_Accuracy.from_monoid, npDiv, h0, hm']
  · intro v h0 hm
    simp [_Accuracy.from_monoid, npDiv, h0, hm]

/-- Witness for the C4 amended theorem at `v = ⟨3, 5⟩`: score `3/5`. -/
theorem accuracy_from_monoid_amended_witness :
    _Accuracy.from_monoid ⟨3, 5⟩ = NPFloat.finite (3 / 5) := by
  have h := accuracy_from_monoid_amended.1 ⟨3, 5⟩ (by norm_num)
  rw [h]
  norm_num

/-- C6: a name other than "accuracy" and "r2" is absent from the initial cache,
requesting it fails with `unknownMetric` from any cache in which it is absent,
and no call ever registers it. -/
theorem get_scorer_unknown_name (name : String)
    (h1 : name ≠ "accuracy") (h2 : name ≠ "r2") :
    _scorer_cache name = none ∧
    (∀ cache : CacheState, cache name = none →
      get_scorer cache name = Except.error MetricError.unknownMetric) ∧
    (∀ (cache cache' : CacheState) (n : String) (r : Scorer),
      cache name = none → get_scorer cache n = Except.ok (r, cache') →
      cache' name = none) := by
  refine ⟨by simp [_scorer_cache, h1, h2],
    fun cache hc => get_scorer_unregistered cache name hc, ?_⟩
  intro cache cache' n r hc hok
  obtain ⟨-, hn, hother⟩ := get_scorer_state_update cache cache' n r hok
  by_cases hne : name = n
  · subst hne
    rw [get_scorer_unregistered cache name hc] at hok
    exact absurd hok (by simp)
  · rw [hother name hne]
    exact hc

/-- Witness for C6 at the unregistered name "f1". -/
theorem get_scorer_unknown_name_witness :
    _scorer_cache "f1" = none ∧
    (∀ cache : CacheState, cache "f1" = none →
      get_scorer cache "f1" = Except.error MetricError.unknownMetric) ∧
    (∀ (cache cache' : CacheState) (n : String) (r : Scorer),
      cache "f1" = none → get_scorer cache n = Except.ok (r, cache') →
      cache' "f1" = none) :=
  get_scorer_unknown_name "f1" (by decide) (by decide)

/-- C7: for a registered name, the first call constructs and stores the
factory and subsequent calls return the very same instance with the cache
unchanged; any call keeps every populated entry populated with the same value
and every registered key registered (states only move
Unregistered → Uninitialized → Initialized). -/
theorem get_scorer_registry_singleton (name : String)
    (h : name = "accuracy" ∨ name = "r2") :
    (∃ (f : Scorer) (cache₁ : CacheState),
      get_scorer _scorer_cache name = Except.ok (f, cache₁) ∧
      cache₁ name = some (some f) ∧
      get_scorer cache₁ name = Except.ok (f, cache₁)) ∧
    (∀ (cache cache' : CacheState) (f : Scorer),
      get_scorer cache name = Except.ok (f, cache') →
      get_scorer cache' name = Except.ok (f, cache')) ∧
    (∀ (cache cache' : CacheState) (r g : Scorer) (s : String),
      cache s = some (some g) → get_scorer cache name = Except.ok (r, cache') →
      cache' s = some (some g)) ∧
    (∀ (cache cache' : CacheState) (r : Scorer) (s : String),
      (cache s).isSome → get_scorer cache name = Except.ok (r, cache') →
      (cache' s).isSome) := by
  refine ⟨?_, ?_, ?_, ?_⟩
  · rcases h with h | h <;> subst h
    · exact ⟨Scorer.accuracy, _scorer_cache_after _scorer_cache "accuracy", rfl, rfl,
        get_scorer_cached _ _ _ rfl⟩
    · exact ⟨Scorer.r2, _scorer_cache_after _scorer_cache "r2", rfl, rfl,
        get_scorer_cached _ _ _ rfl⟩
  · intro cache cache' f hok
    obtain ⟨-, hn, -⟩ := get_scorer_state_update cache cache' name f hok
    exact get_scorer_cached cache' name f hn
  · intro cache cache' r g s hcs hok
    obtain ⟨-, hn, hother⟩ := get_scorer_state_update cache cache' name r hok
    by_cases hse : s = name
    · subst hse
      rw [get_scorer_cached cache s g hcs] at hok
      rw [Except.ok.injEq, Prod.mk.injEq] at hok
      rw [← hok.2]
      exact hcs
    · rw [hother s hse]
      exact hcs
  · intro cache cache' r s hcs hok
    obtain ⟨-, hn, hother⟩ := get_scorer_state_update cache cache' name r hok
    by_cases hse : s = name
    · subst hse
      rw [hn]
      rfl
    · rw [hother s hse]
      exact hcs

/-- Witness for C7 at the registered name "accuracy". -/
theorem get_scorer_registry_singleton_witness :
    ∃ (f : Scorer) (cache₁ : CacheState),
      get_scorer _scorer_cache "accuracy" = Except.ok (f, cache₁) ∧
      cache₁ "accuracy" = some (some f) ∧
      get_scorer cache₁ "accuracy" = Except.ok (f, cache₁) :=
  (get_scorer_registry_singleton "accuracy" (Or.inl rfl)).1

/-- C9: score_estimator delegates to score_data on the model's predictions. -/
theorem score_estimator_delegates {Y P X M DX : Type} (f : MetricMonoidFactory Y P X M)
    (estimator : TrainedOperator DX P) (x : DX) (y : Y) :
    f.score_estimator estimator x y =
      f.score_data y (estimator.predict x) (none : Option X) := rfl

/-- C10: invoking a factory as a function is score_estimator. -/
theorem call_eq_score_estimator {Y P X M DX : Type} (f : MetricMonoidFactory Y P X M)
    (estimator : TrainedOperator DX P) (x : DX) (y : Y) :
    f.call estimator x y = f.score_estimator estimator x y := rfl

end RaslMetrics
